import Mathlib

/-!
Shallow embedding of the membrane-driver-spacetraders program
(src/index.ts and src/unnamed/part_000) and verification of the
frozen claims about it.

JavaScript values that matter for control flow (truthiness of strings
and objects, absent object fields, optional chaining) are modelled with
`Option` and explicit truthiness functions.
-/

namespace SpaceTraders

/-- JS truthiness of a possibly-absent string: `undefined`/`null` and the
empty string are falsy, every other string is truthy. -/
def jsTruthyStr : Option String → Bool
  | none => false
  | some s => ! s.isEmpty

/-- The parsed JSON body of a cooldown-style response:
`{ data?: { remainingSeconds?: number } }`.  `none` models an absent
(or null/undefined) field. -/
structure CoolData where
  remainingSeconds : Option Int
deriving DecidableEq, Repr

/-- A response body as seen by `Ship.cooldown`. -/
structure Body where
  data : Option CoolData
deriving DecidableEq, Repr

/-- One HTTP response from the remote API: its status code and (when the
status is a success other than 204) its parsed JSON body. -/
structure Resp where
  status : Nat
  body : Body
deriving DecidableEq, Repr

/-- Outcome of the `api` helper: a parsed body, a thrown error carrying
the HTTP status (`if (res.status >= 300) throw`), or the model-only
marker that the supplied finite response sequence was used up while the
code was still retrying. -/
inductive ApiOut where
  | success (b : Body)
  | apiError (status : Nat)
  | exhausted
deriving DecidableEq, Repr

/-- The `api` helper of src/index.ts, driven by a finite sequence of
responses (one per attempt).  Its retry condition is
`res.status === 429 || (res.status === 408 && retry < 5)`: by operator
precedence the `retry < 5` bound applies only to status 408.
Besides the outcome it returns the list of `retry` values of the
attempts actually made; the recursive call passes the same method, path,
query and body, so every attempt in the trace uses the same request. -/
def apiIndex : List Resp → Nat → ApiOut × List Nat
  | [], _ => (.exhausted, [])
  | r :: rest, retry =>
    if r.status = 429 ∨ (r.status = 408 ∧ retry < 5) then
      let p := apiIndex rest (retry + 1)
      (p.1, retry :: p.2)
    else if 300 ≤ r.status then (.apiError r.status, [retry])
    else if r.status = 204 then (.success ⟨none⟩, [retry])
    else (.success r.body, [retry])

/-- The `api` helper of src/unnamed/part_000.  Its retry condition is
`res.status === 429 && retry < 5`; everything else is as in
src/index.ts. -/
def apiPart : List Resp → Nat → ApiOut × List Nat
  | [], _ => (.exhausted, [])
  | r :: rest, retry =>
    if r.status = 429 ∧ retry < 5 then
      let p := apiPart rest (retry + 1)
      (p.1, retry :: p.2)
    else if 300 ≤ r.status then (.apiError r.status, [retry])
    else if r.status = 204 then (.success ⟨none⟩, [retry])
    else (.success r.body, [retry])

/-- Result type of `Ship.cooldown`: the number returned to the caller, a
propagated `ApiError`, or the model-only exhaustion marker. -/
inductive CooldownOut where
  | value (n : Int)
  | error (status : Nat)
  | exhausted
deriving DecidableEq, Repr

/-- The resolver `Ship.cooldown` (identical in both variants):
`res?.data?.remainingSeconds ?? 0` applied to the result of
`api("GET", my/ships/SYMBOL/cooldown, {}, {})`. -/
def shipCooldown (rs : List Resp) : CooldownOut :=
  match (apiIndex rs 0).1 with
  | .success b => .value ((b.data.bind (fun d => d.remainingSeconds)).getD 0)
  | .apiError s => .error s
  | .exhausted => .exhausted

/-! ## Credential state and `configure` -/

/-- The stored credential payload `state.data`.  `token` is its `token`
field (read by `api` for the authorization header); `agent` stands for
all the other fields of a register response, which the code stores but
never reads. -/
structure StateData where
  token : Option String
  agent : String
deriving DecidableEq, Repr

/-- The authorization header `api` attaches (src/index.ts lines 49-51):
`Bearer <token>` when `state.data?.token` is truthy, nothing
otherwise. -/
def authHeader (st : Option StateData) : Option String :=
  match st with
  | some d => if jsTruthyStr d.token then some ("Bearer " ++ d.token.getD "") else none
  | none => none

/-- The register request `configure` may issue: its body fields and the
authorization header present on it (computed from the state at call
time). -/
structure RegCall where
  symbol : Option String
  faction : Option String
  email : Option String
  auth : Option String
deriving DecidableEq, Repr

/-- How a `configure` call ends. -/
inductive ConfigOut where
  | ok
  | argError (msg : String)
  | apiError (status : Nat)
deriving DecidableEq, Repr

/-- The `configure` action of src/index.ts, as a state transformer.  `regResult` is
the outcome of the `register` call, supplied as an oracle; the returned
triple is (new `state.data`, list of register calls issued, outcome). -/
def configureIndex (symbol faction token email : Option String)
    (st0 : Option StateData) (regResult : Except Nat StateData) :
    Option StateData × List RegCall × ConfigOut :=
  if jsTruthyStr token then
    (some ⟨token, ""⟩, [], .ok)
  else if jsTruthyStr symbol ∧ jsTruthyStr faction then
    let call : RegCall := ⟨symbol, faction, email, authHeader none⟩
    match regResult with
    | .ok d => (some d, [call], .ok)
    | .error s => (none, [call], .apiError s)
  else
    (st0, [], .argError "Must provide token or symbol and faction")

/-- The `configure` action of src/unnamed/part_000: same token branch, but the
non-token branch registers unconditionally (no argument check, no
email field in the body). -/
def configurePart (symbol faction token : Option String)
    (_st0 : Option StateData) (regResult : Except Nat StateData) :
    Option StateData × List RegCall × ConfigOut :=
  if jsTruthyStr token then
    (some ⟨token, ""⟩, [], .ok)
  else
    let call : RegCall := ⟨symbol, faction, none, authHeader none⟩
    match regResult with
    | .ok d => (some d, [call], .ok)
    | .error s => (none, [call], .apiError s)

/-! ## Pagination -/

/-- The `res.meta` object of a list response. -/
structure Meta where
  total : Nat
  page : Nat
  limit : Nat
deriving DecidableEq, Repr

/-- The `page`/`limit` arguments of a page operation (absent = JS
`undefined`). -/
structure PageArgs where
  page : Option Nat
  limit : Option Nat
deriving DecidableEq, Repr

/-- A deferred reference to the next page of the same collection: the
`page` and `limit` arguments it carries. -/
structure NextRef where
  page : Nat
  limit : Option Nat
deriving DecidableEq, Repr

/-- The `{ items, next }` wrapper returned by page operations; `items`
is the response data, kept opaque. -/
structure PageResult where
  items : String
  next : Option NextRef
deriving DecidableEq, Repr

/-- The operation `FactionCollection.page` (both variants): `next` is always built
from `(args.page ?? 1) + 1` and `args.limit`; `res.meta` is never
read. -/
def factionCollectionPage (args : PageArgs) (resData : String) (_resMeta : Meta) :
    PageResult :=
  { items := resData, next := some ⟨args.page.getD 1 + 1, args.limit⟩ }

/-- The operation `ContractCollection.page` (both variants): identical to the faction
page, `res.meta` never read. -/
def contractCollectionPage (args : PageArgs) (resData : String) (_resMeta : Meta) :
    PageResult :=
  { items := resData, next := some ⟨args.page.getD 1 + 1, args.limit⟩ }

/-- The operation `ShipCollection.page` (both variants): `hasNext = total > page * limit`
from `res.meta`; `next` is null unless `hasNext`. -/
def shipCollectionPage (args : PageArgs) (resData : String) (m : Meta) : PageResult :=
  { items := resData,
    next := if m.total > m.page * m.limit
      then some ⟨args.page.getD 1 + 1, args.limit⟩ else none }

/-- The operation `SystemCollection.page` (both variants): same `hasNext` logic as the
ship page. -/
def systemCollectionPage (args : PageArgs) (resData : String) (m : Meta) : PageResult :=
  { items := resData,
    next := if m.total > m.page * m.limit
      then some ⟨args.page.getD 1 + 1, args.limit⟩ else none }

/-- The operation `WaypointCollection.page` (both variants): same `hasNext` logic as
the ship page (the next-page reference also repeats the system symbol,
which we keep out of `NextRef` since it is not part of the claim). -/
def waypointCollectionPage (args : PageArgs) (resData : String) (m : Meta) : PageResult :=
  { items := resData,
    next := if m.total > m.page * m.limit
      then some ⟨args.page.getD 1 + 1, args.limit⟩ else none }

/-! ## Query-shape inspector and `SystemCollection.one` -/

/-- The inspector `shouldFetch`: flatten the selections of all field nodes and test
whether some requested field name is missing from `simpleFields`.
A field node is modelled as the list of its selected field names. -/
def shouldFetch (info : List (List String)) (simpleFields : List String) : Bool :=
  info.flatten.any (fun v => ! simpleFields.contains v)

/-- Result of `SystemCollection.one`: the synthesized `{ symbol }` stub
or the fetched entity (`res.data`, opaque). -/
inductive SystemOneOut where
  | stub (symbol : String)
  | fetched (data : String)
deriving DecidableEq, Repr

/-- The operation `SystemCollection.one` (both variants): skip the fetch when
`shouldFetch info ["symbol", "waypoints"]` is false, otherwise call the
API exactly once.  The second component counts HTTP calls. -/
def systemCollectionOne (symbol : String) (info : List (List String))
    (remoteData : String) : SystemOneOut × Nat :=
  if ! shouldFetch info ["symbol", "waypoints"] then (.stub symbol, 0)
  else (.fetched remoteData, 1)

/-! ## Free-text parsing (`Root.parse`)

The two regular expressions are `new RegExp("(X1-.{3,4})", "i")` and
`new RegExp("((X1-.{3,4})-.{3,6})", "i")`, both unanchored.  We embed
their matching semantics directly: scan for the first start position
where the pattern matches, with `.` matching any character except a
newline, `{m,n}` greedy with backtracking, and the `i` flag making the
literal `X` match `x` as well.  `String.match` returns `null` when no
position matches; destructuring `null` in JS throws a `TypeError`,
which the embedding records explicitly. -/

/-- The `.` of a JS regex: any character but a newline. -/
def dotM (c : Char) : Bool := c ≠ '\n'

/-- Take exactly `n` characters, each matching `.`; fail otherwise. -/
def takeDots : Nat → List Char → Option (List Char)
  | 0, _ => some []
  | _ + 1, [] => none
  | n + 1, c :: cs =>
    if dotM c then (takeDots n cs).map (fun t => c :: t) else none

/-- Match the literal `X1-` case-insensitively at the head, returning
the matched characters (original case) and the remainder. -/
def x1dash : List Char → Option (List Char × List Char)
  | c0 :: c1 :: c2 :: rest =>
    if (c0 = 'X' ∨ c0 = 'x') ∧ c1 = '1' ∧ c2 = '-' then
      some ([c0, c1, c2], rest)
    else none
  | _ => none

/-- Match `X1-.{3,4}` at the head of the input (greedy: four dot
characters if possible, else three), returning the matched text. -/
def sysAt (cs : List Char) : Option (List Char) :=
  match x1dash cs with
  | none => none
  | some (pre, rest) =>
    match takeDots 4 rest with
    | some t => some (pre ++ t)
    | none =>
      match takeDots 3 rest with
      | some t => some (pre ++ t)
      | none => none

/-- Greedy `.{3,6}` at the head of the input: six characters down to
three. -/
def wpTailK (rest : List Char) : Option (List Char) :=
  match takeDots 6 rest with
  | some t => some t
  | none =>
    match takeDots 5 rest with
    | some t => some t
    | none =>
      match takeDots 4 rest with
      | some t => some t
      | none => takeDots 3 rest

/-- Match `(X1-.{3,4})-.{3,6}` at the head of the input, with the
backtracking order of a regex engine: the inner `{3,4}` tries four
characters first and falls back to three if the rest cannot match.
Returns (whole waypoint match, inner system capture). -/
def wpAt (cs : List Char) : Option (List Char × List Char) :=
  match x1dash cs with
  | none => none
  | some (pre, rest) =>
    let tryM : Nat → Option (List Char × List Char) := fun m =>
      match takeDots m rest with
      | none => none
      | some t =>
        match rest.drop m with
        | '-' :: rest2 =>
          match wpTailK rest2 with
          | some k => some (pre ++ t ++ '-' :: k, pre ++ t)
          | none => none
        | _ => none
    match tryM 4 with
    | some r => some r
    | none => tryM 3

/-- Unanchored search: the first start position (left to right) where
`f` matches, as a regex engine scans. -/
def firstMatch (f : List Char → Option α) : List Char → Option α
  | [] => f []
  | c :: cs =>
    match f (c :: cs) with
    | some r => some r
    | none => firstMatch f cs

/-- The call `value.match(new RegExp("(X1-.{3,4})", "i"))`, group 1. -/
def matchSystem (s : String) : Option String :=
  (firstMatch sysAt s.data).map List.asString

/-- The call `value.match(new RegExp("((X1-.{3,4})-.{3,6})", "i"))`, groups 1
and 2: (waypoint, system). -/
def matchWaypoint (s : String) : Option (String × String) :=
  (firstMatch wpAt s.data).map (fun p => (p.1.asString, p.2.asString))

/-- A graph reference produced by `Root.parse`. -/
inductive Ref where
  | systemOne (symbol : String)
  | waypointOne (system : String) (waypoint : String)
deriving DecidableEq, Repr

/-- What a `Root.parse` call does: return a list of references, or
throw a `TypeError` (array-destructuring the `null` that
`String.match` returns when the pattern does not occur). -/
inductive ParseOut where
  | refs (rs : List Ref)
  | typeError
deriving DecidableEq, Repr

/-- The resolver `Root.parse` (identical in both variants).  For name `system` the
code destructures `value.match(...)` — a `TypeError` when the match is
`null` — and returns a system reference when the capture is truthy;
the `waypoint` case is analogous; any other name returns `[]`. -/
def rootParse (name value : String) : ParseOut :=
  if name = "system" then
    match matchSystem value with
    | none => .typeError
    | some sys =>
      if jsTruthyStr (some sys) then .refs [.systemOne sys] else .refs []
  else if name = "waypoint" then
    match matchWaypoint value with
    | none => .typeError
    | some (wp, sys) =>
      if jsTruthyStr (some wp) ∧ jsTruthyStr (some sys) then
        .refs [.waypointOne sys wp]
      else .refs []
  else .refs []

/-! ## Waypoint sub-resource resolvers and the two caches -/

/-- One entry of a waypoint's trait list. -/
structure Trait where
  symbol : String
deriving DecidableEq, Repr

/-- In src/index.ts the `every` callbacks are written
`(_, { symbol }) => ...`: the second callback parameter of
`Array.prototype.every` is the numeric element index, and destructuring
`{ symbol }` from a number yields `undefined`. -/
def indexDestructuredSymbol (_i : Nat) : Option String := none

/-- Cache lookup: JS object property read `state.cached...[waypoint]`. -/
def lookupCache (c : List (String × α)) (k : String) : Option α :=
  (c.find? (fun p => p.1 == k)).map (fun p => p.2)

/-- Cache store: JS object property assignment
`state.cached...[waypoint] = res.data`. -/
def updateCache (c : List (String × α)) (k : String) (v : α) : List (String × α) :=
  (k, v) :: c.filter (fun p => p.1 != k)

/-- The resolver `Waypoint.shipyard` of src/index.ts.  `traits = none` models an
object without a trait list (the optional chain is `undefined`, falsy,
so the code proceeds to fetch).  `remote` is the API outcome; the
result pairs the returned value (or propagated error status) with the
number of HTTP calls made. -/
def shipyardIndex (traits : Option (List Trait)) (remote : Except Nat String) :
    Except Nat (Option String) × Nat :=
  let guard : Bool :=
    match traits with
    | some ts => ts.enum.all (fun p => indexDestructuredSymbol p.1 != some "SHIPYARD")
    | none => false
  if guard then (.ok none, 0)
  else
    match remote with
    | .ok d => (.ok (some d), 1)
    | .error s => if s = 404 then (.ok none, 1) else (.error s, 1)

/-- The resolver `Waypoint.shipyard` of src/unnamed/part_000: the `every` callback is
`({ symbol }) => symbol !== "SHIPYARD"`, correctly destructuring the
trait element. -/
def shipyardPart (traits : Option (List Trait)) (remote : Except Nat String) :
    Except Nat (Option String) × Nat :=
  let guard : Bool :=
    match traits with
    | some ts => ts.all (fun t => t.symbol != "SHIPYARD")
    | none => false
  if guard then (.ok none, 0)
  else
    match remote with
    | .ok d => (.ok (some d), 1)
    | .error s => if s = 404 then (.ok none, 1) else (.error s, 1)

/-- A market payload: its `transactions` field (`none` = absent or
null; a present array is truthy even when empty) and the rest of the
payload, kept opaque. -/
structure Market where
  transactions : Option (List String)
  info : String
deriving DecidableEq, Repr

/-- Truthiness of `state.cachedMarkets[waypoint]?.transactions`: a cache
entry counts only when it carries a transactions field. -/
def marketCacheHit (cache : List (String × Market)) (w : String) : Option Market :=
  match lookupCache cache w with
  | some m => if m.transactions.isSome then some m else none
  | none => none

/-- The resolver `Waypoint.market` of src/index.ts: serve from cache when the entry
has transactions; otherwise the (index-destructured, see
`indexDestructuredSymbol`) trait guard; otherwise fetch, store the
payload on success, translate 404 to null.  Returns (value or error,
HTTP call count, new cache). -/
def marketIndex (cache : List (String × Market)) (waypoint : String)
    (traits : Option (List Trait)) (remote : Except Nat Market) :
    Except Nat (Option Market) × Nat × List (String × Market) :=
  match marketCacheHit cache waypoint with
  | some m => (.ok (some m), 0, cache)
  | none =>
    let guard : Bool :=
      match traits with
      | some ts => ts.enum.all (fun p => indexDestructuredSymbol p.1 != some "MARKETPLACE")
      | none => false
    if guard then (.ok none, 0, cache)
    else
      match remote with
      | .ok d => (.ok (some d), 1, updateCache cache waypoint d)
      | .error s => if s = 404 then (.ok none, 1, cache) else (.error s, 1, cache)

/-- The resolver `Waypoint.market` of src/unnamed/part_000: as `marketIndex` but the
trait guard destructures the element, testing its `symbol` field. -/
def marketPart (cache : List (String × Market)) (waypoint : String)
    (traits : Option (List Trait)) (remote : Except Nat Market) :
    Except Nat (Option Market) × Nat × List (String × Market) :=
  match marketCacheHit cache waypoint with
  | some m => (.ok (some m), 0, cache)
  | none =>
    let guard : Bool :=
      match traits with
      | some ts => ts.all (fun t => t.symbol != "MARKETPLACE")
      | none => false
    if guard then (.ok none, 0, cache)
    else
      match remote with
      | .ok d => (.ok (some d), 1, updateCache cache waypoint d)
      | .error s => if s = 404 then (.ok none, 1, cache) else (.error s, 1, cache)

/-- The resolver `Waypoint.jumpGate` of src/index.ts: any cache entry (an object,
hence truthy) is served; otherwise null unless `obj.type` is
`JUMP_GATE`; otherwise fetch, store on success, and translate the
not-available status 400 to null. -/
def jumpGateIndex (cache : List (String × String)) (waypoint : String)
    (wtype : Option String) (remote : Except Nat String) :
    Except Nat (Option String) × Nat × List (String × String) :=
  match lookupCache cache waypoint with
  | some g => (.ok (some g), 0, cache)
  | none =>
    if wtype ≠ some "JUMP_GATE" then (.ok none, 0, cache)
    else
      match remote with
      | .ok d => (.ok (some d), 1, updateCache cache waypoint d)
      | .error s => if s = 400 then (.ok none, 1, cache) else (.error s, 1, cache)

/-- The resolver `Waypoint.jumpGate` of src/unnamed/part_000: as `jumpGateIndex` but
the not-found status translated to null is 404. -/
def jumpGatePart (cache : List (String × String)) (waypoint : String)
    (wtype : Option String) (remote : Except Nat String) :
    Except Nat (Option String) × Nat × List (String × String) :=
  match lookupCache cache waypoint with
  | some g => (.ok (some g), 0, cache)
  | none =>
    if wtype ≠ some "JUMP_GATE" then (.ok none, 0, cache)
    else
      match remote with
      | .ok d => (.ok (some d), 1, updateCache cache waypoint d)
      | .error s => if s = 404 then (.ok none, 1, cache) else (.error s, 1, cache)

/-! ## Actions with mutually exclusive argument pairs -/

/-- The single HTTP call an action issues: method, path, and the
resolved symbol it sends in the request body (the other body fields do
not depend on the exclusive pair and are elided). -/
structure CallRec where
  method : String
  path : String
  bodySymbol : Option String
deriving DecidableEq, Repr

/-- The action `Contract.deliver` (both variants): throw when `args.shipSymbol`
and `args.ship` are both truthy; resolve `ship` (modelled as the ship
symbol its reference carries) into `shipSymbol`; issue one POST.
`Except.error` is the thrown message, `Except.ok` the one call made. -/
def contractDeliver (shipSymbol : Option String) (ship : Option String)
    (id : String) : Except String CallRec :=
  if jsTruthyStr shipSymbol ∧ ship.isSome then
    .error "Cannot specify both shipSymbol and ship"
  else
    let resolved := match ship with
      | some s => some s
      | none => shipSymbol
    .ok ⟨"POST", "my/contracts/" ++ id ++ "/deliver", resolved⟩

/-- The action `Ship.navigate` (both variants): throw when `waypoint` and
`waypointSymbol` are both truthy; resolve `waypoint` (modelled as the
waypoint symbol its reference carries); issue one POST. -/
def shipNavigate (waypoint : Option String) (waypointSymbol : Option String)
    (shipSymbol : String) : Except String CallRec :=
  if waypoint.isSome ∧ jsTruthyStr waypointSymbol then
    .error "Please provide waypoint or waypointSymbol but not both."
  else
    let resolved := match waypoint with
      | some w => some w
      | none => waypointSymbol
    .ok ⟨"POST", "my/ships/" ++ shipSymbol ++ "/navigate", resolved⟩

/-- The action `ShipCollection.purchase` (both variants): same exclusive-pair
check as `Ship.navigate`, then one POST to `my/ships` whose body
carries the resolved waypoint symbol (and the ship type, elided). -/
def shipCollectionPurchase (waypoint : Option String)
    (waypointSymbol : Option String) : Except String CallRec :=
  if waypoint.isSome ∧ jsTruthyStr waypointSymbol then
    .error "Please provide waypoint or waypointSymbol but not both."
  else
    let resolved := match waypoint with
      | some w => some w
      | none => waypointSymbol
    .ok ⟨"POST", "my/ships", resolved⟩

/-! ## Supporting lemmas -/

/-- The part_000 client makes at most `6 - min retry 5` attempts for any
response sequence: every retry increments `retry`, and the 429 branch is
guarded by `retry < 5`. -/
theorem apiPart_attempts_bound (rs : List Resp) :
    ∀ retry, (apiPart rs retry).2.length + min retry 5 ≤ 6 := by
  induction rs with
  | nil =>
    intro retry
    simp only [apiPart, List.length_nil]
    omega
  | cons r rest ih =>
    intro retry
    by_cases h : r.status = 429 ∧ retry < 5
    · have hrec := ih (retry + 1)
      simp only [apiPart, if_pos h, List.length_cons]
      omega
    · by_cases h2 : 300 ≤ r.status
      · simp only [apiPart, if_neg h, if_pos h2, List.length_singleton]
        omega
      · by_cases h3 : r.status = 204
        · simp only [apiPart, if_neg h, if_neg h2, if_pos h3, List.length_singleton]
          omega
        · simp only [apiPart, if_neg h, if_neg h2, if_neg h3, List.length_singleton]
          omega

/-! ## Claims -/

/-- C1: the claim says throttled calls make at most 6 attempts in both
variants.  This holds for src/unnamed/part_000 (first conjunct, any
response sequence), but src/index.ts retries status 429 without any
bound: on seven consecutive 429 responses it makes 7 attempts — with
retry counts 0..6, so the sixth 429, seen at retry = 5, is retried
again instead of falling through to normal status handling — while
part_000 stops after 6 attempts and raises the 429 as an ApiError. -/
theorem claim_C1_retry_bound :
    (∀ rs : List Resp, (apiPart rs 0).2.length ≤ 6) ∧
    (apiIndex (List.replicate 7 ⟨429, ⟨none⟩⟩) 0).2 = [0, 1, 2, 3, 4, 5, 6] ∧
    (apiPart (List.replicate 7 ⟨429, ⟨none⟩⟩) 0).2 = [0, 1, 2, 3, 4, 5] ∧
    (apiPart (List.replicate 7 ⟨429, ⟨none⟩⟩) 0).1 = .apiError 429 := by
  refine ⟨fun rs => ?_, by decide, by decide, by decide⟩
  have := apiPart_attempts_bound rs 0
  omega

/-- C4: inputs matching the system pattern parse as a system reference,
and inputs matching the waypoint pattern parse as a waypoint reference
whose system drops the final segment — but an input matching neither
pattern makes `String.match` return null, and array-destructuring null
throws a TypeError instead of yielding the empty result the claim
describes. -/
theorem claim_C4_parse :
    rootParse "system" "X1-AB12" = .refs [.systemOne "X1-AB12"] ∧
    rootParse "waypoint" "X1-AB12-XYZ" = .refs [.waypointOne "X1-AB12" "X1-AB12-XYZ"] ∧
    rootParse "system" "nope" = .typeError ∧
    rootParse "waypoint" "nope" = .typeError ∧
    rootParse "somethingElse" "nope" = .refs [] := by
  exact ⟨by decide, by decide, by decide, by decide, by decide⟩

/-- C10: when the cooldown response body carries no
`data.remainingSeconds` (in particular a 204 response, which `api`
maps to an empty object) the resolver returns 0; when the field is
present its value is returned verbatim. -/
theorem claim_C10_cooldown (r : Resp) (h : r.status < 300) :
    (r.status = 204 → shipCooldown [r] = .value 0) ∧
    (r.body.data.bind (fun d => d.remainingSeconds) = none →
      shipCooldown [r] = .value 0) ∧
    (∀ n, r.status ≠ 204 → r.body.data.bind (fun d => d.remainingSeconds) = some n →
      shipCooldown [r] = .value n) := by
  have h429 : r.status ≠ 429 := by omega
  have h408 : r.status ≠ 408 := by omega
  have hretry : ¬ (r.status = 429 ∨ (r.status = 408 ∧ 0 < 5)) := by omega
  have herr : ¬ 300 ≤ r.status := by omega
  refine ⟨fun h204 => ?_, fun hnone => ?_, fun n h204 hsome => ?_⟩
  · simp [shipCooldown, apiIndex, hretry, herr, h204]
  · by_cases h204 : r.status = 204
    · simp [shipCooldown, apiIndex, hretry, herr, h204]
    · simp [shipCooldown, apiIndex, h429, h408, herr, h204, hnone]
  · simp [shipCooldown, apiIndex, h429, h408, herr, h204, hsome]

/-- C10 witness: the three cases of the cooldown claim at concrete
responses. -/
theorem claim_C10_cooldown_witness :
    shipCooldown [⟨204, ⟨some ⟨some 9⟩⟩⟩] = .value 0 ∧
    shipCooldown [⟨200, ⟨none⟩⟩] = .value 0 ∧
    shipCooldown [⟨200, ⟨some ⟨some 9⟩⟩⟩] = .value 9 :=
  ⟨(claim_C10_cooldown ⟨204, ⟨some ⟨some 9⟩⟩⟩ (by decide)).1 rfl,
   (claim_C10_cooldown ⟨200, ⟨none⟩⟩ (by decide)).2.1 rfl,
   (claim_C10_cooldown ⟨200, ⟨some ⟨some 9⟩⟩⟩ (by decide)).2.2 9 (by decide) rfl⟩

/-- C2 counterexample: FactionCollection.page never reads `res.meta`,
so with meta total = 0, page = 1, limit = 10 — where total ≤ page·limit
and the claim requires next = null — its next is still a reference to
page 2. -/
theorem claim_C2_counterexample :
    (Meta.mk 0 1 10).total ≤ (Meta.mk 0 1 10).page * (Meta.mk 0 1 10).limit ∧
    (factionCollectionPage ⟨none, none⟩ "items" ⟨0, 1, 10⟩).next = some ⟨2, none⟩ :=
  ⟨by decide, by decide⟩

/-- C2 amended: the null-iff-`total ≤ page·limit` rule holds for the
ship, system and waypoint page operations, whose non-null next carries
page+1 and the same limit; the faction and contract page operations
always return a non-null next with page+1 and the same limit,
regardless of the response meta. -/
theorem claim_C2_page_next (args : PageArgs) (d : String) (m : Meta) :
    ((shipCollectionPage args d m).next = none ↔ m.total ≤ m.page * m.limit) ∧
    (m.page * m.limit < m.total →
      (shipCollectionPage args d m).next = some ⟨args.page.getD 1 + 1, args.limit⟩) ∧
    ((systemCollectionPage args d m).next = none ↔ m.total ≤ m.page * m.limit) ∧
    (m.page * m.limit < m.total →
      (systemCollectionPage args d m).next = some ⟨args.page.getD 1 + 1, args.limit⟩) ∧
    ((waypointCollectionPage args d m).next = none ↔ m.total ≤ m.page * m.limit) ∧
    (m.page * m.limit < m.total →
      (waypointCollectionPage args d m).next = some ⟨args.page.getD 1 + 1, args.limit⟩) ∧
    (factionCollectionPage args d m).next = some ⟨args.page.getD 1 + 1, args.limit⟩ ∧
    (contractCollectionPage args d m).next = some ⟨args.page.getD 1 + 1, args.limit⟩ := by
  have key : ∀ o : Option NextRef,
      o = (if m.total > m.page * m.limit
            then some ⟨args.page.getD 1 + 1, args.limit⟩ else none) →
      (o = none ↔ m.total ≤ m.page * m.limit) ∧
      (m.page * m.limit < m.total → o = some ⟨args.page.getD 1 + 1, args.limit⟩) := by
    intro o ho
    by_cases hc : m.total > m.page * m.limit
    · rw [ho, if_pos hc]
      exact ⟨⟨fun h => by simp at h, fun h => by omega⟩, fun _ => rfl⟩
    · rw [ho, if_neg hc]
      exact ⟨⟨fun _ => by omega, fun _ => rfl⟩, fun h => absurd h hc⟩
  obtain ⟨h1, h2⟩ := key (shipCollectionPage args d m).next rfl
  obtain ⟨h3, h4⟩ := key (systemCollectionPage args d m).next rfl
  obtain ⟨h5, h6⟩ := key (waypointCollectionPage args d m).next rfl
  exact ⟨h1, h2, h3, h4, h5, h6, rfl, rfl⟩

/-- C2 witness: a page with total = 25, page = 2, limit = 10 has a next
reference to page 3 with the same limit, for each of the three
meta-reading collections. -/
theorem claim_C2_page_next_witness :
    (shipCollectionPage ⟨some 2, some 10⟩ "d" ⟨25, 2, 10⟩).next = some ⟨3, some 10⟩ ∧
    (systemCollectionPage ⟨some 2, some 10⟩ "d" ⟨25, 2, 10⟩).next = some ⟨3, some 10⟩ ∧
    (waypointCollectionPage ⟨some 2, some 10⟩ "d" ⟨25, 2, 10⟩).next = some ⟨3, some 10⟩ :=
  ⟨(claim_C2_page_next ⟨some 2, some 10⟩ "d" ⟨25, 2, 10⟩).2.1 (by decide),
   (claim_C2_page_next ⟨some 2, some 10⟩ "d" ⟨25, 2, 10⟩).2.2.2.1 (by decide),
   (claim_C2_page_next ⟨some 2, some 10⟩ "d" ⟨25, 2, 10⟩).2.2.2.2.2.1 (by decide)⟩

/-- C3: in src/unnamed/part_000 the shipyard resolver behaves as the
claim says — a trait list without SHIPYARD gives null with no call, a
SHIPYARD trait triggers the fetch, and a remote 404 becomes null — but
in src/index.ts the `every` callback destructures the numeric index, so
the guard fires even when the SHIPYARD (or MARKETPLACE) trait is
present: the resolver returns null without any network call instead of
fetching. -/
theorem claim_C3_trait_guard :
    shipyardPart (some [⟨"VOLCANIC"⟩]) (.ok "SY") = (.ok none, 0) ∧
    shipyardPart (some [⟨"SHIPYARD"⟩]) (.ok "SY") = (.ok (some "SY"), 1) ∧
    shipyardPart (some [⟨"SHIPYARD"⟩]) (.error 404) = (.ok none, 1) ∧
    shipyardPart (some [⟨"SHIPYARD"⟩]) (.error 500) = (.error 500, 1) ∧
    shipyardIndex (some [⟨"SHIPYARD"⟩]) (.ok "SY") = (.ok none, 0) ∧
    marketIndex [] "W" (some [⟨"MARKETPLACE"⟩]) (.ok ⟨some [], "M"⟩)
      = (.ok none, 0, []) :=
  ⟨rfl, rfl, rfl, rfl, rfl, rfl⟩

/-- C5 counterexample: a selection consisting only of the field
`waypoints` — a field name other than `symbol` — still returns the stub
with no network call, because the identifying field list of
SystemCollection.one is `[symbol, waypoints]`. -/
theorem claim_C5_counterexample :
    systemCollectionOne "S" [["waypoints"]] "DATA" = (.stub "S", 0) ∧
    "waypoints" ≠ "symbol" :=
  ⟨by decide, by decide⟩

/-- C5 amended: the inspector returns true unless every requested name
is among the given identifying names (the general statement holds as
claimed); SystemCollection.one returns the stub without a fetch exactly
when the inspector is false for the identifying list
`[symbol, waypoints]` — not just for `symbol` alone — and fetches
exactly once otherwise. -/
theorem claim_C5_should_fetch (symbol d : String) (info : List (List String))
    (fs : List String) :
    (shouldFetch info fs = true ↔ ¬ ∀ v ∈ info.flatten, v ∈ fs) ∧
    (systemCollectionOne symbol info d = (.stub symbol, 0) ↔
      shouldFetch info ["symbol", "waypoints"] = false) ∧
    (shouldFetch info ["symbol", "waypoints"] = true →
      systemCollectionOne symbol info d = (.fetched d, 1)) := by
  refine ⟨?_, ?_, fun ht => ?_⟩
  · rw [shouldFetch, List.any_eq_true]
    constructor
    · rintro ⟨v, hv, hnv⟩
      intro hall
      have hct : fs.contains v = true := List.elem_eq_true_of_mem (hall v hv)
      rw [hct] at hnv
      simp at hnv
    · intro h
      push_neg at h
      obtain ⟨v, hv, hnv⟩ := h
      refine ⟨v, hv, ?_⟩
      cases hc : fs.contains v
      · rfl
      · exact absurd (List.mem_of_elem_eq_true hc) hnv
  · cases hb : shouldFetch info ["symbol", "waypoints"] with
    | false => simp [systemCollectionOne, hb]
    | true => simp [systemCollectionOne, hb]
  · simp [systemCollectionOne, ht]

/-- C5 witness: a selection of a non-identifying field name triggers
exactly one fetch. -/
theorem claim_C5_should_fetch_witness :
    systemCollectionOne "S" [["name"]] "D" = (.fetched "D", 1) :=
  (claim_C5_should_fetch "S" "D" [["name"]] []).2.2 (by decide)

/-- C6 counterexample: in src/unnamed/part_000, a configure call with
neither a token nor a callsign+faction pair does not fail fast — it
issues a register network call (here failing with 422) and surfaces the
remote error, not the descriptive argument error. -/
theorem claim_C6_counterexample :
    (configurePart none none none (some ⟨some "OLD", ""⟩) (.error 422)).2.1
      = [⟨none, none, none, none⟩] ∧
    (configurePart none none none (some ⟨some "OLD", ""⟩) (.error 422)).2.2
      = .apiError 422 :=
  ⟨rfl, rfl⟩

/-- C6 amended: src/index.ts behaves exactly as the claim says (store a
supplied token, register on callsign+faction, fail fast with no network
call when neither is given), and a stored token makes `api` attach the
bearer authorization header; src/unnamed/part_000 shares the token
branch but, when the token is absent, always issues a register call
with whatever symbol/faction were supplied and no fail-fast check. -/
theorem claim_C6_configure
    (symbol faction token email : Option String) (st0 : Option StateData)
    (reg : Except Nat StateData) :
    (jsTruthyStr token = true →
      configureIndex symbol faction token email st0 reg = (some ⟨token, ""⟩, [], .ok) ∧
      configurePart symbol faction token st0 reg = (some ⟨token, ""⟩, [], .ok) ∧
      authHeader (some ⟨token, ""⟩) = some ("Bearer " ++ token.getD "")) ∧
    (jsTruthyStr token = false → jsTruthyStr symbol = true → jsTruthyStr faction = true →
      ∀ d, reg = .ok d →
        configureIndex symbol faction token email st0 reg
          = (some d, [⟨symbol, faction, email, none⟩], .ok)) ∧
    (jsTruthyStr token = false →
      ¬ (jsTruthyStr symbol = true ∧ jsTruthyStr faction = true) →
      configureIndex symbol faction token email st0 reg
        = (st0, [], .argError "Must provide token or symbol and faction")) ∧
    (jsTruthyStr token = false →
      (configurePart symbol faction token st0 reg).2.1
        = [⟨symbol, faction, none, none⟩]) := by
  refine ⟨fun ht => ?_, fun ht hs hf d hd => ?_, fun ht hn => ?_, fun ht => ?_⟩
  · refine ⟨?_, ?_, ?_⟩
    · simp [configureIndex, ht]
    · simp [configurePart, ht]
    · simp [authHeader, ht]
  · subst hd
    simp [configureIndex, ht, hs, hf, authHeader]
  · simp [configureIndex, ht, hn]
  · cases reg with
    | ok d => simp [configurePart, ht, authHeader]
    | error s => simp [configurePart, ht, authHeader]

/-- C6 witness: the three src/index.ts branches and the part_000
register-always branch at concrete inputs. -/
theorem claim_C6_configure_witness :
    configureIndex none none (some "T") none none (.error 500)
      = (some ⟨some "T", ""⟩, [], .ok) ∧
    authHeader (some ⟨some "T", ""⟩) = some ("Bearer " ++ (some "T").getD "") ∧
    configureIndex (some "CALL") (some "COSMIC") none none none (.ok ⟨some "T2", "A"⟩)
      = (some ⟨some "T2", "A"⟩, [⟨some "CALL", some "COSMIC", none, none⟩], .ok) ∧
    configureIndex none none none none (some ⟨some "OLD", ""⟩) (.ok ⟨some "T2", "A"⟩)
      = (some ⟨some "OLD", ""⟩, [], .argError "Must provide token or symbol and faction") ∧
    (configurePart none none none (some ⟨some "OLD", ""⟩) (.ok ⟨some "T2", "A"⟩)).2.1
      = [⟨none, none, none, none⟩] :=
  ⟨((claim_C6_configure none none (some "T") none none (.error 500)).1 (by decide)).1,
   ((claim_C6_configure none none (some "T") none none (.error 500)).1 (by decide)).2.2,
   (claim_C6_configure (some "CALL") (some "COSMIC") none none none
      (.ok ⟨some "T2", "A"⟩)).2.1 (by decide) (by decide) (by decide) ⟨some "T2", "A"⟩ rfl,
   (claim_C6_configure none none none none (some ⟨some "OLD", ""⟩)
      (.ok ⟨some "T2", "A"⟩)).2.2.1 (by decide) (by decide),
   (claim_C6_configure none none none none (some ⟨some "OLD", ""⟩)
      (.ok ⟨some "T2", "A"⟩)).2.2.2 (by decide)⟩

/-- C7 counterexample: in src/index.ts, with a cached market lacking
transactions and a waypoint whose trait list is present (even
containing MARKETPLACE), the resolver does not refetch: the broken
trait guard returns null with zero network calls and the stale entry
stays. -/
theorem claim_C7_counterexample :
    marketIndex [("W", ⟨none, "old"⟩)] "W" (some [⟨"MARKETPLACE"⟩]) (.ok ⟨some [], "fresh"⟩)
      = (.ok none, 0, [("W", ⟨none, "old"⟩)]) :=
  rfl

/-- C7 amended: the market resolver serves the cached value with no
network call exactly when the stored entry carries a transactions
field; when it does not, a refetch happens only if the resolved object
carries no trait list (a present trait list makes the src/index.ts
guard return null with no call); a successful fetch stores the payload.
The jump-gate resolver serves any present entry and stores on success,
as claimed. -/
theorem claim_C7_caches
    (cache : List (String × Market)) (jcache : List (String × String)) (w : String)
    (traits : Option (List Trait)) (wtype : Option String)
    (remote : Except Nat Market) (jremote : Except Nat String) :
    (∀ m, marketCacheHit cache w = some m →
      marketIndex cache w traits remote = (.ok (some m), 0, cache)) ∧
    (∀ m, marketCacheHit cache w = some m ↔
      (lookupCache cache w = some m ∧ m.transactions.isSome = true)) ∧
    (marketCacheHit cache w = none → traits = none →
      (marketIndex cache w traits remote).2.1 = 1) ∧
    (marketCacheHit cache w = none → ∀ ts, traits = some ts →
      marketIndex cache w traits remote = (.ok none, 0, cache)) ∧
    (marketCacheHit cache w = none → traits = none → ∀ d, remote = .ok d →
      marketIndex cache w traits remote = (.ok (some d), 1, updateCache cache w d)) ∧
    (∀ g, lookupCache jcache w = some g →
      jumpGateIndex jcache w wtype jremote = (.ok (some g), 0, jcache)) ∧
    (lookupCache jcache w = none → wtype = some "JUMP_GATE" → ∀ d, jremote = .ok d →
      jumpGateIndex jcache w wtype jremote = (.ok (some d), 1, updateCache jcache w d)) := by
  refine ⟨fun m hm => ?_, fun m => ?_, fun hm ht => ?_, fun hm ts ht => ?_,
    fun hm ht d hd => ?_, fun g hg => ?_, fun hg hw d hd => ?_⟩
  · simp [marketIndex, hm]
  · unfold marketCacheHit
    cases hl : lookupCache cache w with
    | none => simp
    | some m2 =>
      by_cases htx : m2.transactions.isSome = true
      · show (if m2.transactions.isSome = true then some m2 else none) = some m ↔ _
        rw [if_pos htx]
        constructor
        · intro h
          cases h
          exact ⟨rfl, htx⟩
        · rintro ⟨h1, _⟩
          cases h1
          rfl
      · show (if m2.transactions.isSome = true then some m2 else none) = some m ↔ _
        rw [if_neg htx]
        constructor
        · intro h
          cases h
        · rintro ⟨h1, h2⟩
          cases h1
          exact absurd h2 htx
  · subst ht
    simp [marketIndex, hm]
    cases remote with
    | ok d => simp
    | error s =>
      by_cases h404 : s = 404
      · simp [h404]
      · simp [h404]
  · subst ht
    simp [marketIndex, hm, indexDestructuredSymbol, List.all_eq_true]
  · subst ht
    subst hd
    simp [marketIndex, hm]
  · simp [jumpGateIndex, hg]
  · subst hd
    simp [jumpGateIndex, hg, hw]

/-- C7 witness: each conjunct of the amended cache claim at a concrete
state. -/
theorem claim_C7_caches_witness :
    marketIndex [("W", ⟨some ["t"], "m"⟩)] "W" none (.error 500)
      = (.ok (some ⟨some ["t"], "m"⟩), 0, [("W", ⟨some ["t"], "m"⟩)]) ∧
    (marketIndex [] "W" none (.ok ⟨some [], "fresh"⟩)).2.1 = 1 ∧
    marketIndex [("W", ⟨none, "old"⟩)] "W" (some []) (.ok ⟨some [], "fresh"⟩)
      = (.ok none, 0, [("W", ⟨none, "old"⟩)]) ∧
    marketIndex [] "W" none (.ok ⟨some [], "fresh"⟩)
      = (.ok (some ⟨some [], "fresh"⟩), 1, updateCache [] "W" ⟨some [], "fresh"⟩) ∧
    jumpGateIndex [("W", "gate")] "W" none (.error 500)
      = (.ok (some "gate"), 0, [("W", "gate")]) ∧
    jumpGateIndex [] "W" (some "JUMP_GATE") (.ok "gate")
      = (.ok (some "gate"), 1, updateCache [] "W" "gate") :=
  ⟨(claim_C7_caches [("W", ⟨some ["t"], "m"⟩)] [] "W" none none (.error 500)
      (.error 500)).1 ⟨some ["t"], "m"⟩ rfl,
   (claim_C7_caches [] [] "W" none none (.ok ⟨some [], "fresh"⟩) (.error 500)).2.2.1
      rfl rfl,
   (claim_C7_caches [("W", ⟨none, "old"⟩)] [] "W" (some []) none
      (.ok ⟨some [], "fresh"⟩) (.error 500)).2.2.2.1 rfl [] rfl,
   (claim_C7_caches [] [] "W" none none (.ok ⟨some [], "fresh"⟩) (.error 500)).2.2.2.2.1
      rfl rfl ⟨some [], "fresh"⟩ rfl,
   (claim_C7_caches [] [("W", "gate")] "W" none none (.error 500) (.error 500)).2.2.2.2.2.1
      "gate" rfl,
   (claim_C7_caches [] [] "W" none (some "JUMP_GATE") (.error 500) (.ok "gate")).2.2.2.2.2.2
      rfl rfl "gate" rfl⟩

/-- C8: each action taking a mutually exclusive pair throws its
descriptive error before any network call when both members are truthy,
and with only the reference form supplied it resolves the reference to
the underlying symbol and issues exactly one HTTP call carrying it. -/
theorem claim_C8_exclusive_args
    (shipSymbol ship : Option String) (id : String)
    (waypoint waypointSymbol : Option String) (shipSym : String) :
    (jsTruthyStr shipSymbol = true → ship.isSome = true →
      contractDeliver shipSymbol ship id
        = .error "Cannot specify both shipSymbol and ship") ∧
    (∀ s, contractDeliver none (some s) id
      = .ok ⟨"POST", "my/contracts/" ++ id ++ "/deliver", some s⟩) ∧
    (waypoint.isSome = true → jsTruthyStr waypointSymbol = true →
      shipNavigate waypoint waypointSymbol shipSym
          = .error "Please provide waypoint or waypointSymbol but not both." ∧
      shipCollectionPurchase waypoint waypointSymbol
          = .error "Please provide waypoint or waypointSymbol but not both.") ∧
    (∀ wsym, shipNavigate (some wsym) none shipSym
        = .ok ⟨"POST", "my/ships/" ++ shipSym ++ "/navigate", some wsym⟩ ∧
      shipCollectionPurchase (some wsym) none = .ok ⟨"POST", "my/ships", some wsym⟩) := by
  refine ⟨fun h1 h2 => ?_, fun s => rfl, fun h1 h2 => ⟨?_, ?_⟩, fun wsym => ⟨rfl, rfl⟩⟩
  · simp [contractDeliver, h1, h2]
  · simp [shipNavigate, h1, h2]
  · simp [shipCollectionPurchase, h1, h2]

/-- C8 witness: both-given fails, reference-only resolves, at concrete
arguments. -/
theorem claim_C8_exclusive_args_witness :
    contractDeliver (some "S1") (some "S2") "c1"
      = .error "Cannot specify both shipSymbol and ship" ∧
    contractDeliver none (some "S2") "c1"
      = .ok ⟨"POST", "my/contracts/" ++ "c1" ++ "/deliver", some "S2"⟩ ∧
    shipNavigate (some "W1") (some "W2") "SH"
      = .error "Please provide waypoint or waypointSymbol but not both." ∧
    shipCollectionPurchase (some "W1") (some "W2")
      = .error "Please provide waypoint or waypointSymbol but not both." ∧
    shipNavigate (some "W1") none "SH"
      = .ok ⟨"POST", "my/ships/" ++ "SH" ++ "/navigate", some "W1"⟩ :=
  ⟨(claim_C8_exclusive_args (some "S1") (some "S2") "c1" none none "SH").1
      (by decide) (by decide),
   (claim_C8_exclusive_args none (some "S2") "c1" none none "SH").2.1 "S2",
   ((claim_C8_exclusive_args none none "c1" (some "W1") (some "W2") "SH").2.2.1
      (by decide) (by decide)).1,
   ((claim_C8_exclusive_args none none "c1" (some "W1") (some "W2") "SH").2.2.1
      (by decide) (by decide)).2,
   ((claim_C8_exclusive_args none none "c1" (some "W1") none "SH").2.2.2 "W1").1⟩

/-- C9: when configure registers (truthy callsign and faction, no
token), the stored credential is deleted before the register call, so
that call carries no authorization header; if registration fails the
error propagates and the process is left with no stored credential,
whatever was stored before. -/
theorem claim_C9_register_unauth
    (symbol faction email : Option String) (st0 : Option StateData)
    (reg : Except Nat StateData)
    (hs : jsTruthyStr symbol = true) (hf : jsTruthyStr faction = true) :
    ((configureIndex symbol faction none email st0 reg).2.1).all
        (fun c => c.auth == none) = true ∧
    (∀ s, reg = .error s →
      configureIndex symbol faction none email st0 reg
        = (none, [⟨symbol, faction, email, none⟩], .apiError s)) := by
  have htok : jsTruthyStr none = false := rfl
  constructor
  · cases reg with
    | ok d => simp [configureIndex, htok, hs, hf, authHeader]
    | error s => simp [configureIndex, htok, hs, hf, authHeader]
  · intro s hd
    subst hd
    simp [configureIndex, htok, hs, hf, authHeader]

/-- C9 witness: a failing registration wipes a previously stored
credential and its register call was unauthenticated. -/
theorem claim_C9_register_unauth_witness :
    ((configureIndex (some "CALL") (some "COSMIC") none none
        (some ⟨some "OLD", ""⟩) (.error 500)).2.1).all
        (fun c => c.auth == none) = true ∧
    configureIndex (some "CALL") (some "COSMIC") none none
        (some ⟨some "OLD", ""⟩) (.error 500)
      = (none, [⟨some "CALL", some "COSMIC", none, none⟩], .apiError 500) :=
  ⟨(claim_C9_register_unauth (some "CALL") (some "COSMIC") none
      (some ⟨some "OLD", ""⟩) (.error 500) (by decide) (by decide)).1,
   (claim_C9_register_unauth (some "CALL") (some "COSMIC") none
      (some ⟨some "OLD", ""⟩) (.error 500) (by decide) (by decide)).2 500 rfl⟩

end SpaceTraders
